import Mathlib

/-!
Verification development for the simulation-requirement runtime monitor of
the rigel repository (`rigel/plugins/core/test/introspection/`).

The Python sources are shallowly embedded as pure Lean functions:

* the predicate compiler (`callback.py`) becomes functions from messages to
  `Except PyErr Bool` (a raised Python exception is an `Except.error`);
* each requirement-node class becomes a state structure plus handler
  functions returning the updated state together with the ordered list of
  effects (commands sent upstream / downstream, timer operations, bus
  subscription removal) the handler performs, in program order.

Wall-clock values (`time.time()`, timestamps, timeouts) are modelled as
rationals; the infinite default timeout `math.inf` is the dedicated
constructor `RTime.inf`.
-/

namespace Rigel

/-- Python exceptions that the embedded code can raise.  `keyError` mirrors a
`KeyError` raised by dictionary lookup, `typeError` stands for the `TypeError`
Python raises when a value of the wrong shape is subscripted, called or
compared, `indexError` for indexing an empty list, and `unsupportedOperator`
for the `Exception` raised by `process_binary_operator` on an unknown
operator (raised in Python at generation time; modelled as a callback that
fails on every message). -/
inductive PyErr
  | keyError (key : String)
  | typeError
  | indexError
  | unsupportedOperator (op : String)
deriving DecidableEq, Repr

/-- Literal values appearing in HPL predicates (`HplLiteral`, after
`__extract_value` has been applied: numeric and boolean literals are kept
native, string literals already have their quote markers stripped).
Python's numeric types `int` and `float` are modelled together as `ℚ`. -/
inductive LitVal
  | num (q : ℚ)
  | boolean (b : Bool)
  | str (s : String)
deriving DecidableEq, Repr

/-- A structured ROS message value: a primitive or a nested string-keyed
dictionary (`Dict[str, Any]` in the source). -/
inductive RVal
  | num (q : ℚ)
  | boolean (b : Bool)
  | str (s : String)
  | dict (entries : List (String × RVal))

/-- `CallbackGenerator.__field_path`: resolve a dotted field path against a
nested mapping.  `content[next]` on a dictionary missing the key raises
`KeyError`; subscripting a non-dictionary raises `TypeError`; `path[0]` on an
empty path raises `IndexError`.  Errors propagate to the caller, never
swallowed (the source re-raises the caught `KeyError`). -/
def field_path : RVal → List String → Except PyErr RVal
  | _, [] => .error .indexError
  | content, next :: rest =>
    match content with
    | .dict entries =>
      match entries.lookup next with
      | none => .error (.keyError next)
      | some v => if rest.isEmpty then .ok v else field_path v rest
    | _ => .error .typeError

/-- Python `==` between a message field value and a compiled literal.
Literals are never dictionaries, so comparing a nested value against a
literal yields `False` (Python semantics for `dict == primitive`).
Cross-type numeric/boolean coercion (`True == 1`) is not modelled; the
compiler only ever produces same-typed comparisons. -/
def rval_eq_lit : RVal → LitVal → Bool
  | .num a, .num b => a == b
  | .boolean a, .boolean b => a == b
  | .str a, .str b => a == b
  | _, _ => false

/-- Python `<` between a message field value and a literal: ordered for
numbers and strings, `TypeError` otherwise. -/
def rval_lt : RVal → LitVal → Except PyErr Bool
  | .num a, .num b => .ok (decide (a < b))
  | .str a, .str b => .ok (decide (a < b))
  | _, _ => .error .typeError

/-- Python `<=`, same typing discipline as `rval_lt`. -/
def rval_le : RVal → LitVal → Except PyErr Bool
  | .num a, .num b => .ok (decide (a ≤ b))
  | .str a, .str b => .ok (decide (a ≤ b))
  | _, _ => .error .typeError

/-- Python `>`, same typing discipline as `rval_lt`. -/
def rval_gt : RVal → LitVal → Except PyErr Bool
  | .num a, .num b => .ok (decide (b < a))
  | .str a, .str b => .ok (decide (b < a))
  | _, _ => .error .typeError

/-- Python `>=`, same typing discipline as `rval_lt`. -/
def rval_ge : RVal → LitVal → Except PyErr Bool
  | .num a, .num b => .ok (decide (b ≤ a))
  | .str a, .str b => .ok (decide (b ≤ a))
  | _, _ => .error .typeError

/-- The type of a compiled message predicate
(`ROSCallbackType = Callable[[ROSMessageType], bool]`), with a raised
exception modelled as `Except.error`. -/
def Callback : Type := RVal → Except PyErr Bool

namespace CallbackGenerator

/-- `CallbackGenerator.generate_callback_equal`. -/
def generate_callback_equal (field : List String) (value : LitVal) : Callback :=
  fun msg => do
    let v ← field_path msg field
    pure (rval_eq_lit v value)

/-- `CallbackGenerator.generate_callback_different`. -/
def generate_callback_different (field : List String) (value : LitVal) : Callback :=
  fun msg => do
    let v ← field_path msg field
    pure (!(rval_eq_lit v value))

/-- `CallbackGenerator.generate_callback_lesser`. -/
def generate_callback_lesser (field : List String) (value : LitVal) : Callback :=
  fun msg => do
    let v ← field_path msg field
    rval_lt v value

/-- `CallbackGenerator.generate_callback_lesser_than` (the `<=` generator). -/
def generate_callback_lesser_than (field : List String) (value : LitVal) : Callback :=
  fun msg => do
    let v ← field_path msg field
    rval_le v value

/-- `CallbackGenerator.generate_callback_greater`. -/
def generate_callback_greater (field : List String) (value : LitVal) : Callback :=
  fun msg => do
    let v ← field_path msg field
    rval_gt v value

/-- `CallbackGenerator.generate_callback_greater_than` (the `>=` generator). -/
def generate_callback_greater_than (field : List String) (value : LitVal) : Callback :=
  fun msg => do
    let v ← field_path msg field
    rval_ge v value

/-- `CallbackGenerator.generate_callback_iff`: evaluate `anterior` on the
message; when it holds return `posterior`'s result, otherwise return `False`
without consulting `posterior`.  An exception raised by `anterior` propagates
before `posterior` is ever invoked. -/
def generate_callback_iff (anterior posterior : Callback) : Callback :=
  fun msg => do
    let b ← anterior msg
    if b then posterior msg else pure false

/-- `CallbackGenerator.generate_callback_and`: evaluate `anterior`, then
`posterior`, on every message (no short-circuiting), and conjoin the
results. -/
def generate_callback_and (anterior posterior : Callback) : Callback :=
  fun msg => do
    let anterior_value ← anterior msg
    let posterior_value ← posterior msg
    pure (anterior_value && posterior_value)

/-- `CallbackGenerator.generate_callback_vacuous`: always `True`. -/
def generate_callback_vacuous : Callback :=
  fun _ => pure true

end CallbackGenerator

/-- The HPL expression fragment consumed by
`CallbackGenerator.process_binary_operator`: a field access (with the dotted
path already flattened, as `__extract_field_path` does), a literal (with
`__extract_value` already applied), or a nested binary operator.  The
operator is kept as the string the source dispatches on. -/
inductive HplAst
  | fieldAccess (path : List String)
  | lit (value : LitVal)
  | binaryOperator (op : String) (operand1 operand2 : HplAst)

/-- Result of `CallbackGenerator.__extract_argument`: a field path (for
`HplFieldAccess`), a literal value (for `HplLiteral`) or a compiled callback
(for a nested `HplBinaryOperator`). -/
inductive Arg
  | fieldPath (path : List String)
  | value (v : LitVal)
  | callback (c : Callback)

/-- Using an argument in callback position.  In Python, calling a non-callable
extracted argument raises `TypeError`; that is modelled as a callback failing
on every message. -/
def Arg.as_callback : Arg → Callback
  | .callback c => c
  | _ => fun _ => .error .typeError

/-- Instantiating a comparison generator on extracted arguments.  The source
passes `arg1` as the field path and `arg2` as the literal value; any other
shape would raise `TypeError` inside the generated callback in Python and is
modelled as a callback failing on every message. -/
def comparison_of (gen : List String → LitVal → Callback) : Arg → Arg → Callback
  | .fieldPath p, .value v => gen p v
  | _, _ => fun _ => .error .typeError

open CallbackGenerator in
/-- The operator dispatch of `CallbackGenerator.process_binary_operator`,
acting on the two already-extracted arguments.  Note the source hands the
arguments to `generate_callback_iff` swapped: `generate_callback_iff(arg2,
arg1)` for both `iff` and `implies`. -/
def dispatch_binary_operator (op : String) (arg1 arg2 : Arg) : Callback :=
  if op = "=" then comparison_of generate_callback_equal arg1 arg2
  else if op = "!=" then comparison_of generate_callback_different arg1 arg2
  else if op = "<" then comparison_of generate_callback_lesser arg1 arg2
  else if op = "<=" then comparison_of generate_callback_lesser_than arg1 arg2
  else if op = ">" then comparison_of generate_callback_greater arg1 arg2
  else if op = ">=" then comparison_of generate_callback_greater_than arg1 arg2
  else if op = "iff" ∨ op = "implies" then
    generate_callback_iff (Arg.as_callback arg2) (Arg.as_callback arg1)
  else if op = "and" then
    generate_callback_and (Arg.as_callback arg1) (Arg.as_callback arg2)
  else fun _ => .error (.unsupportedOperator op)

/-- `CallbackGenerator.__extract_argument`, recursing through nested binary
operators. -/
def extract_argument : HplAst → Arg
  | .fieldAccess p => .fieldPath p
  | .lit v => .value v
  | .binaryOperator op a b =>
    .callback (dispatch_binary_operator op (extract_argument a) (extract_argument b))

/-- `CallbackGenerator.process_binary_operator`: extract both operands, then
dispatch on the operator string. -/
def process_binary_operator (op : String) (operand1 operand2 : HplAst) : Callback :=
  dispatch_binary_operator op (extract_argument operand1) (extract_argument operand2)

/-- The behaviour the specification ascribes to the compiled
`implies(A, B)` / `iff(A, B)` predicate, written from the spec's words:
"evaluate A first; if A holds, return B's result; if A does not hold, return
false without consulting B".  Kept separate from the source embedding so it
can be compared against `process_binary_operator`. -/
def spec_implies_callback (a b : Callback) : Callback :=
  fun msg => do
    let r ← a msg
    if r then b msg else pure false

/-! ## Command protocol (`command.py`) -/

/-- A protocol command together with its payload (`Command` in the source:
a `CommandType` plus a data dictionary).  The CONNECT payload (the live bus
client handle) plays no role in any handler's control flow and is elided;
the TRIGGER payload is its timestamp. -/
inductive Cmd
  | rosbridgeConnect
  | rosbridgeDisconnect
  | statusChange
  | stopSimulation
  | trigger (timestamp : ℚ)
deriving DecidableEq, Repr

namespace CommandBuilder

/-- `CommandBuilder.build_rosbridge_disconnect_cmd`. -/
def build_rosbridge_disconnect_cmd : Cmd := .rosbridgeDisconnect

/-- `CommandBuilder.build_status_change_cmd`. -/
def build_status_change_cmd : Cmd := .statusChange

/-- `CommandBuilder.build_stop_simulation_cmd`. -/
def build_stop_simulation_cmd : Cmd := .stopSimulation

/-- `CommandBuilder.build_trigger_cmd`: the timestamp payload defaults to
`0.0` when the caller supplies none. -/
def build_trigger_cmd (timestamp : ℚ := 0) : Cmd := .trigger timestamp

end CommandBuilder

/-- One observable side effect of a handler invocation, recorded in program
order: a command sent to the father (`send_upstream_cmd`), broadcast to all
children (`send_downstream_cmd`), sent to one child by its index in the
children list (`send_child_downstream_cmd`), an operation on the node's own
timer(s), the removal of a leaf's bus subscription
(`disconnect_from_rosbridge`), or a leaf writing its father's `last_message`
field. -/
inductive Effect
  | sendUpstream (c : Cmd)
  | sendDownstream (c : Cmd)
  | sendChildDownstream (child : Nat) (c : Cmd)
  | timerCancel
  | timerStart
  | cancelStartTimer
  | cancelStopTimer
  | startStartTimer
  | startStopTimer
  | busUnregister
  | setFatherLastMessage (t : ℚ)
deriving DecidableEq, Repr

/-- A node's timeout: a finite duration in seconds, or the default
`math.inf`. -/
inductive RTime
  | fin (t : ℚ)
  | inf
deriving DecidableEq, Repr

/-! ## Precedence/Requirement node (`requirement.py`)

`RequirementSimulationRequirementNode` reads exactly two children:
`posterior = self.children[0]` and `anterior = self.children[1]`.  Only the
children's `satisfied` flags and the node's own `satisfied` flag drive the
handlers embedded here. -/

namespace RequirementNode

/-- The mutable state of a Precedence/Requirement node that its handlers
consult: the `satisfied` flags of `children[0]` and `children[1]`, and the
node's own flag. -/
structure State where
  child0_satisfied : Bool
  child1_satisfied : Bool
  satisfied : Bool
deriving DecidableEq, Repr

/-- `RequirementSimulationRequirementNode.assess_children_nodes`: with
`posterior = children[0]` and `anterior = children[1]`, send STOP_SIMULATION
upstream when `anterior.satisfied and not posterior.satisfied`; return
whether both children are satisfied. -/
def assess_children_nodes (s : State) : Bool × List Effect :=
  let posterior := s.child0_satisfied
  let anterior := s.child1_satisfied
  let effects :=
    if anterior && !posterior then
      [Effect.sendUpstream CommandBuilder.build_stop_simulation_cmd]
    else []
  (posterior && anterior, effects)

/-- `RequirementSimulationRequirementNode.handle_children_status_change`:
run the assessment (which may itself emit STOP upstream); when it reports
both children satisfied, mark the node satisfied, cancel the timer, relay
DISCONNECT downstream and emit STATUS_CHANGE upstream. -/
def handle_children_status_change (s : State) : State × List Effect :=
  let (ok, effects) := assess_children_nodes s
  if ok then
    ({ s with satisfied := true },
      effects ++
        [Effect.timerCancel,
         Effect.sendDownstream CommandBuilder.build_rosbridge_disconnect_cmd,
         Effect.sendUpstream CommandBuilder.build_status_change_cmd])
  else (s, effects)

/-- `RequirementSimulationRequirementNode.handle_timeout`: STOP upstream
when the node is still unsatisfied. -/
def handle_timeout (s : State) : List Effect :=
  if !s.satisfied then [Effect.sendUpstream CommandBuilder.build_stop_simulation_cmd]
  else []

/-- `RequirementSimulationRequirementNode.handle_rosbridge_connection_commands`:
relay the CONNECT command downstream first, then start the node's own timer,
and only when a finite time limit was specified. -/
def handle_rosbridge_connection_commands (timeout : RTime) (command : Cmd) : List Effect :=
  Effect.sendDownstream command ::
    (if timeout ≠ RTime.inf then [Effect.timerStart] else [])

/-- `RequirementSimulationRequirementNode.handle_rosbridge_disconnection_commands`:
cancel the timer (needs no previous start), then relay downstream. -/
def handle_rosbridge_disconnection_commands (command : Cmd) : List Effect :=
  [Effect.timerCancel, Effect.sendDownstream command]

/-- `RequirementSimulationRequirementNode.handle_upstream_command`: only
STATUS_CHANGE is acted upon. -/
def handle_upstream_command (s : State) (command : Cmd) : State × List Effect :=
  if command = Cmd.statusChange then handle_children_status_change s
  else (s, [])

end RequirementNode

/-! ## Response node (`response.py`)

`ResponseSimulationRequirementNode` reads `anterior = self.children[0]` and
`posterior = self.children[1]`. -/

namespace ResponseNode

/-- The mutable state a Response node's handlers consult: the two children's
`satisfied` flags and the node's own flag. -/
structure State where
  child0_satisfied : Bool
  child1_satisfied : Bool
  satisfied : Bool
deriving DecidableEq, Repr

/-- `ResponseSimulationRequirementNode.assess_children_nodes`: both children
satisfied. -/
def assess_children_nodes (s : State) : Bool :=
  s.child0_satisfied && s.child1_satisfied

/-- `ResponseSimulationRequirementNode.handle_rosbridge_disconnection_commands`:
cancel the timer, re-run the assessment, emit STATUS_CHANGE upstream whenever
the assessment holds, then relay the command downstream.  This runs on every
DISCONNECT delivery, including repeated ones. -/
def handle_rosbridge_disconnection_commands (s : State) (command : Cmd) :
    State × List Effect :=
  let sat := assess_children_nodes s
  ({ s with satisfied := sat },
    Effect.timerCancel ::
      (if sat then [Effect.sendUpstream CommandBuilder.build_status_change_cmd] else []) ++
      [Effect.sendDownstream command])

/-- `ResponseSimulationRequirementNode.handle_rosbridge_connection_commands`:
relay CONNECT downstream first, then start the timer only for a finite
timeout. -/
def handle_rosbridge_connection_commands (timeout : RTime) (command : Cmd) : List Effect :=
  Effect.sendDownstream command ::
    (if timeout ≠ RTime.inf then [Effect.timerStart] else [])

end ResponseNode

/-! ## Prevention node (`prevention.py`)

`PreventionSimulationRequirementNode` reads `anterior = self.children[0]`
(the P event) and `posterior = self.children[1]` (the Q event). -/

namespace PreventionNode

/-- The mutable state a Prevention node's handlers consult. -/
structure State where
  child0_satisfied : Bool
  child1_satisfied : Bool
  satisfied : Bool
deriving DecidableEq, Repr

/-- `PreventionSimulationRequirementNode.assess_children_nodes`:
`anterior.satisfied and not posterior.satisfied`. -/
def assess_children_nodes (s : State) : Bool :=
  s.child0_satisfied && !s.child1_satisfied

/-- `PreventionSimulationRequirementNode.handle_timeout`: recompute
`satisfied` from the children; when satisfied, emit STATUS_CHANGE upstream
and DISCONNECT downstream; otherwise emit STOP_SIMULATION upstream
(unconditionally in the unsatisfied branch). -/
def handle_timeout (s : State) : State × List Effect :=
  let sat := assess_children_nodes s
  if sat then
    ({ s with satisfied := sat },
      [Effect.sendUpstream CommandBuilder.build_status_change_cmd,
       Effect.sendDownstream CommandBuilder.build_rosbridge_disconnect_cmd])
  else
    ({ s with satisfied := sat },
      [Effect.sendUpstream CommandBuilder.build_stop_simulation_cmd])

/-- `PreventionSimulationRequirementNode.handle_rosbridge_disconnection_commands`:
cancel the timer, re-run the assessment, emit STATUS_CHANGE upstream whenever
the assessment holds, then relay the command downstream.  This runs on every
DISCONNECT delivery, including repeated ones. -/
def handle_rosbridge_disconnection_commands (s : State) (command : Cmd) :
    State × List Effect :=
  let sat := assess_children_nodes s
  ({ s with satisfied := sat },
    Effect.timerCancel ::
      (if sat then [Effect.sendUpstream CommandBuilder.build_status_change_cmd] else []) ++
      [Effect.sendDownstream command])

/-- `PreventionSimulationRequirementNode.handle_rosbridge_connection_commands`:
relay CONNECT downstream first, then start the timer only for a finite
timeout. -/
def handle_rosbridge_connection_commands (timeout : RTime) (command : Cmd) : List Effect :=
  Effect.sendDownstream command ::
    (if timeout ≠ RTime.inf then [Effect.timerStart] else [])

end PreventionNode

/-! ## Existence node (`existence.py`) -/

namespace ExistenceNode

/-- The mutable state an Existence node's handlers consult: the `satisfied`
flags of its children (a list, as the source iterates `self.children`) and
its own flag. -/
structure State where
  children_satisfied : List Bool
  satisfied : Bool
deriving DecidableEq, Repr

/-- `ExistenceSimulationRequirementNode.assess_children_nodes`: `False` as
soon as one child is unsatisfied, `True` otherwise. -/
def assess_children_nodes (s : State) : Bool :=
  s.children_satisfied.all (fun c => c)

/-- `ExistenceSimulationRequirementNode.handle_rosbridge_connection_commands`:
relay CONNECT downstream first, then start the timer only for a finite
timeout. -/
def handle_rosbridge_connection_commands (timeout : RTime) (command : Cmd) : List Effect :=
  Effect.sendDownstream command ::
    (if timeout ≠ RTime.inf then [Effect.timerStart] else [])

/-- `ExistenceSimulationRequirementNode.handle_rosbridge_disconnection_commands`:
cancel the timer (needs no previous start), then relay downstream.  The state
is untouched and nothing is sent upstream. -/
def handle_rosbridge_disconnection_commands (command : Cmd) : List Effect :=
  [Effect.timerCancel, Effect.sendDownstream command]

end ExistenceNode

/-! ## Absence node (`absence.py`) -/

namespace AbsenceNode

/-- The mutable state an Absence node's handlers consult. -/
structure State where
  children_satisfied : List Bool
  satisfied : Bool
deriving DecidableEq, Repr

/-- `AbsenceSimulationRequirementNode.assess_children_nodes`: `False` as soon
as one child is satisfied, `True` otherwise. -/
def assess_children_nodes (s : State) : Bool :=
  s.children_satisfied.all (fun c => !c)

/-- `AbsenceSimulationRequirementNode.handle_rosbridge_connection_commands`:
relay CONNECT downstream first, then start the timer only for a finite
timeout. -/
def handle_rosbridge_connection_commands (timeout : RTime) (command : Cmd) : List Effect :=
  Effect.sendDownstream command ::
    (if timeout ≠ RTime.inf then [Effect.timerStart] else [])

/-- `AbsenceSimulationRequirementNode.handle_rosbridge_disconnection_commands`:
cancel the timer (needs no previous start), then relay downstream.  The state
is untouched and nothing is sent upstream. -/
def handle_rosbridge_disconnection_commands (s : State) (command : Cmd) :
    State × List Effect :=
  (s, [Effect.timerCancel, Effect.sendDownstream command])

end AbsenceNode

/-! ## Disjunction node

The module `disjoint.py` defining `DisjointSimulationRequirementNode` is not
among the available sources (it is only imported by `simple.py`,
`response.py`, `prevention.py` and `parser.py`). -/

namespace DisjointNode

/-- Modelled from the spec: `DisjointSimulationRequirementNode`'s handling of
a downstream CONNECT command (source file `disjoint.py` missing).  Per the
shared transition rules, on downstream CONNECT a non-leaf node relays CONNECT
to its children; the Disjunction pattern has no timer of its own, so no timer
is ever started. -/
def handle_rosbridge_connection_commands (command : Cmd) : List Effect :=
  [Effect.sendDownstream command]

end DisjointNode

/-! ## Simple-event leaf (`simple.py`) -/

/-- The kind of the father node, as far as `SimpleSimulationRequirementNode`
distinguishes it: `__str__` tests `isinstance(self.father,
AbsenceSimulationRequirementNode)` and `message_handler` tests
`isinstance(self.father, DisjointSimulationRequirementNode)`; every other
father class behaves alike. -/
inductive FatherKind
  | absence
  | disjoint
  | other
deriving DecidableEq, Repr

namespace SimpleNode

/-- The mutable state of a Simple-event leaf: its `satisfied` flag, the
timestamp of the last satisfying message (`last_message`, initialised to
`0.0`), the `trigger` flag, the father back-reference (as its kind, `none`
when no father was ever set), whether a bus client handle was stored by
`connect_to_rosbridge`, and the immutable topic and predicate strings used
by `__str__`. -/
structure State where
  satisfied : Bool
  last_message : ℚ
  trigger : Bool
  father : Option FatherKind
  has_client : Bool
  ros_topic : String
  predicate : String
deriving DecidableEq, Repr

/-- `SimpleSimulationRequirementNode.disconnect_from_rosbridge`: remove the
bus subscription, guarded by the truthiness of the stored client handle. -/
def disconnect_from_rosbridge (s : State) : List Effect :=
  if s.has_client then [Effect.busUnregister] else []

/-- `SimpleSimulationRequirementNode.handle_trigger`: set the `trigger` flag;
when the last satisfying message postdates the trigger timestamp, unsubscribe
and emit STATUS_CHANGE upstream. -/
def handle_trigger (s : State) (timestamp : ℚ) : State × List Effect :=
  let s1 := { s with trigger := true }
  if s1.last_message > timestamp then
    (s1, disconnect_from_rosbridge s1 ++
      [Effect.sendUpstream CommandBuilder.build_status_change_cmd])
  else (s1, [])

/-- `SimpleSimulationRequirementNode.message_handler`, invoked by the bus for
every message matching the leaf's topic and type.  `callback_result` is the
value of the compiled predicate on the delivered message and `now` the
reception wall-clock time (`time.time()`).  When the predicate holds the leaf
records satisfaction; only when the `trigger` flag is already set does it
propagate its father's `last_message` (Disjunction fathers only),
unsubscribe, and emit STATUS_CHANGE upstream. -/
def message_handler (s : State) (callback_result : Bool) (now : ℚ) :
    State × List Effect :=
  if callback_result then
    let s1 := { s with satisfied := true, last_message := now }
    if s1.trigger then
      (s1,
        (if s1.father = some FatherKind.disjoint then [Effect.setFatherLastMessage now] else []) ++
          disconnect_from_rosbridge s1 ++
          [Effect.sendUpstream CommandBuilder.build_status_change_cmd])
    else (s1, [])
  else (s, [])

/-- `SimpleSimulationRequirementNode.__str__`: one report line per leaf.  The
label dictionary is inverted exactly when the node has a father that is an
Absence node; the timestamp field is the recorded `last_message` when that
float is truthy (non-zero) and a fixed message otherwise.  The decimal
rendering of the Python float is abstracted as `toString` of the rational. -/
def node_str (s : State) : String :=
  let label :=
    if s.father.isSome && (s.father = some FatherKind.absence) then
      (if s.satisfied then "UNSATISFIED" else "SATISFIED")
    else
      (if s.satisfied then "SATISFIED" else "UNSATISFIED")
  let satisfied_msg :=
    if s.last_message ≠ 0 then toString s.last_message else "no ROS message received"
  "\n[" ++ s.ros_topic ++ "]\t- " ++ label ++ "\t(" ++ satisfied_msg ++ "): " ++ s.predicate

end SimpleNode

/-! ## Monitor coordinator (`manager.py`) -/

namespace Manager

/-- The mutable state of `SimulationRequirementsManager` that its handlers
consult: its children's `satisfied` flags, its own `satisfied` flag, the
`finished` flag observable by the harness, and the private
`__introspection_started` flag. -/
structure State where
  children_satisfied : List Bool
  satisfied : Bool
  finished : Bool
  introspection_started : Bool
deriving DecidableEq, Repr

/-- `SimulationRequirementsManager.assess_children_nodes`: `True` only when
the children list is non-empty, introspection has started, and every child is
satisfied; with no children it always returns `False` (run until the
timeout). -/
def assess_children_nodes (s : State) : Bool :=
  if !s.children_satisfied.isEmpty && s.introspection_started then
    s.children_satisfied.all (fun c => c)
  else false

/-- `SimulationRequirementsManager.stop_timers`: cancel both the ignore-window
timer and the hard-deadline timer. -/
def stop_timers : List Effect :=
  [Effect.cancelStartTimer, Effect.cancelStopTimer]

/-- `SimulationRequirementsManager.stop_simulation`: disconnect the tree from
the bus (relay DISCONNECT downstream) and set `finished`. -/
def stop_simulation (s : State) : State × List Effect :=
  ({ s with finished := true },
    [Effect.sendDownstream CommandBuilder.build_rosbridge_disconnect_cmd])

/-- `SimulationRequirementsManager.handle_children_status_change`: act only on
a change of the aggregate assessment; on a transition to satisfied, stop both
timers and stop the simulation. -/
def handle_children_status_change (s : State) : State × List Effect :=
  if assess_children_nodes s != s.satisfied then
    let s1 := { s with satisfied := !s.satisfied }
    if s1.satisfied then
      let (s2, e2) := stop_simulation s1
      (s2, stop_timers ++ e2)
    else (s1, [])
  else (s, [])

/-- `SimulationRequirementsManager.handle_start_timeout` (ignore-window
expiry): mark introspection as started, relay `build_trigger_cmd()`
downstream — with its default timestamp, no argument is passed — and then
immediately re-run the aggregate assessment by emulating a STATUS_CHANGE. -/
def handle_start_timeout (s : State) : State × List Effect :=
  let s1 := { s with introspection_started := true }
  let (s2, e2) := handle_children_status_change s1
  (s2, Effect.sendDownstream CommandBuilder.build_trigger_cmd :: e2)

/-- `SimulationRequirementsManager.handle_stop_timeout` (hard-deadline
expiry): stop the simulation. -/
def handle_stop_timeout (s : State) : State × List Effect :=
  stop_simulation s

/-- `SimulationRequirementsManager.handle_stop_simulation` (upstream
STOP_SIMULATION): stop both timers, then stop the simulation. -/
def handle_stop_simulation (s : State) : State × List Effect :=
  let (s2, e2) := stop_simulation s
  (s2, stop_timers ++ e2)

/-- The sources of execution that can reach a coordinator without children:
its two timer callbacks.  (Upstream commands are delivered only by children
via `send_upstream_cmd`, and bus messages only reach leaves, so with an empty
children list the two timers are the only entry points that ever fire.) -/
inductive MEvent
  | startTimeout
  | stopTimeout
deriving DecidableEq, Repr

/-- One event step of the coordinator. -/
def step (s : State) : MEvent → State × List Effect
  | .startTimeout => handle_start_timeout s
  | .stopTimeout => handle_stop_timeout s

/-- Run the coordinator through a sequence of timer events, discarding the
emitted effects. -/
def run (s : State) : List MEvent → State
  | [] => s
  | e :: rest => run (step s e).1 rest

/-- The coordinator's initial state when no requirement subtrees were added:
no children, unsatisfied, not finished, introspection not started. -/
def empty_init : State :=
  { children_satisfied := [], satisfied := false, finished := false,
    introspection_started := false }

end Manager

/-! ## Claims -/

/-- C1 (counterexample): in the Precedence/Requirement node, with the claim's
stated child ordering `[Q, P]` (`Q = children[0]`, `P = children[1]`), take
the state in which Q is satisfied and P is not.  Processing a child status
change leaves the state unchanged and emits no command at all — in
particular no STOP_SIMULATION upstream, contrary to the claim. -/
theorem C1_requirement_stop_counterexample :
    RequirementNode.handle_children_status_change
        { child0_satisfied := true, child1_satisfied := false, satisfied := false } =
      ({ child0_satisfied := true, child1_satisfied := false, satisfied := false }, []) := by
  decide

/-- C1 (amended): processing a child status change in the
Precedence/Requirement node emits STOP_SIMULATION upstream exactly when
`children[1]` (the P child, called `anterior` in the source) is satisfied
while `children[0]` (the Q child, called `posterior`) is not — the roles
opposite to the claimed ones. -/
theorem C1_requirement_stop_amended (s : RequirementNode.State) :
    Effect.sendUpstream Cmd.stopSimulation ∈
        (RequirementNode.handle_children_status_change s).2 ↔
      s.child1_satisfied = true ∧ s.child0_satisfied = false := by
  obtain ⟨c0, c1, sat⟩ := s
  cases c0 <;> cases c1 <;> cases sat <;> decide

/-- C2 (counterexample): compile `implies` applied to the operands
`A = (x = 1)` and `B = (y = 1)` and evaluate the result on the message
`{x: 2}`.  A evaluates to false on this message, so the claimed behaviour
("if A does not hold, return false without consulting B") yields `ok false`;
the compiled predicate instead consults B first and propagates B's
`KeyError` for the missing field `y`. -/
theorem C2_implies_counterexample :
    process_binary_operator "implies"
        (.binaryOperator "=" (.fieldAccess ["x"]) (.lit (.num 1)))
        (.binaryOperator "=" (.fieldAccess ["y"]) (.lit (.num 1)))
        (RVal.dict [("x", RVal.num 2)]) = .error (.keyError "y") ∧
    spec_implies_callback
        (Arg.as_callback (extract_argument
          (.binaryOperator "=" (.fieldAccess ["x"]) (.lit (.num 1)))))
        (Arg.as_callback (extract_argument
          (.binaryOperator "=" (.fieldAccess ["y"]) (.lit (.num 1)))))
        (RVal.dict [("x", RVal.num 2)]) = .ok false := by
  exact ⟨rfl, rfl⟩

/-- C2 (amended): for every pair of operands, the predicate compiled from
`implies` (and likewise from `iff`) evaluates the SECOND operand B first; if
B holds it returns A's result, and if B does not hold it returns false
without consulting A — the source hands the extracted arguments to
`generate_callback_iff` swapped. -/
theorem C2_implies_amended (o1 o2 : HplAst) (msg : RVal) :
    process_binary_operator "implies" o1 o2 msg =
        (match Arg.as_callback (extract_argument o2) msg with
          | Except.error e => Except.error e
          | Except.ok true => Arg.as_callback (extract_argument o1) msg
          | Except.ok false => Except.ok false) ∧
    process_binary_operator "iff" o1 o2 msg =
        (match Arg.as_callback (extract_argument o2) msg with
          | Except.error e => Except.error e
          | Except.ok true => Arg.as_callback (extract_argument o1) msg
          | Except.ok false => Except.ok false) := by
  constructor <;>
  · show CallbackGenerator.generate_callback_iff _ _ msg = _
    unfold CallbackGenerator.generate_callback_iff
    cases h : Arg.as_callback (extract_argument o2) msg with
    | error e => simp only [h]; rfl
    | ok b => cases b <;> (simp only [h]; rfl)

/-- C3 (counterexample): a Simple-event leaf whose `trigger` flag is not yet
set (no TRIGGER received), delivered a message satisfying its predicate at
time 7: the leaf records `satisfied := true` and `last_message := 7` but
emits no command at all — in particular no STATUS_CHANGE to its father,
contrary to the claim. -/
theorem C3_leaf_status_change_counterexample :
    SimpleNode.message_handler
        { satisfied := false, last_message := 0, trigger := false, father := some .other,
          has_client := true, ros_topic := "/t", predicate := "p" } true 7 =
      ({ satisfied := true, last_message := 7, trigger := false, father := some .other,
          has_client := true, ros_topic := "/t", predicate := "p" }, []) := by
  decide

/-- C3 (amended): for every qualifying message (predicate true) delivered at
time `now`, the leaf sets `satisfied` and records `last_message := now`; it
pushes STATUS_CHANGE upward to its father exactly when its `trigger` flag was
already set, and emits nothing otherwise. -/
theorem C3_leaf_status_change_amended (s : SimpleNode.State) (now : ℚ) :
    (SimpleNode.message_handler s true now).1.satisfied = true ∧
    (SimpleNode.message_handler s true now).1.last_message = now ∧
    (Effect.sendUpstream Cmd.statusChange ∈ (SimpleNode.message_handler s true now).2 ↔
      s.trigger = true) := by
  obtain ⟨sat, lm, trig, fa, hc, topic, pred⟩ := s
  cases trig <;>
    simp [SimpleNode.message_handler, SimpleNode.disconnect_from_rosbridge,
      CommandBuilder.build_status_change_cmd]

/-- Helper: `handle_children_status_change` never touches the coordinator's
`__introspection_started` flag. -/
theorem Manager.hcsc_introspection (s : Manager.State) :
    (Manager.handle_children_status_change s).1.introspection_started =
      s.introspection_started := by
  unfold Manager.handle_children_status_change Manager.stop_simulation
  split
  · dsimp only
    split <;> rfl
  · rfl

/-- Helper: when the aggregate assessment agrees with the current `satisfied`
flag, `handle_children_status_change` changes nothing and emits nothing. -/
theorem Manager.hcsc_no_change (s : Manager.State)
    (h : Manager.assess_children_nodes s = s.satisfied) :
    Manager.handle_children_status_change s = (s, []) := by
  unfold Manager.handle_children_status_change
  rw [h]
  simp

/-- Helper: the unfolding of `handle_start_timeout` in terms of
`handle_children_status_change` on the armed state. -/
theorem Manager.handle_start_timeout_eq (s : Manager.State) :
    Manager.handle_start_timeout s =
      ((Manager.handle_children_status_change
          { s with introspection_started := true }).1,
        Effect.sendDownstream (Cmd.trigger 0) ::
          (Manager.handle_children_status_change
            { s with introspection_started := true }).2) := by
  simp only [Manager.handle_start_timeout]
  rcases hp : Manager.handle_children_status_change { s with introspection_started := true }
    with ⟨s2, e2⟩
  rfl

/-- C4 (counterexample): on ignore-window expiry the coordinator relays a
TRIGGER command whose timestamp payload is the builder default `0.0` — the
handler passes no argument to `build_trigger_cmd` and has no access to the
clock — so at any expiry instant other than 0 (for instance wall-clock time
5) the relayed payload differs from the current time required by the
claim. -/
theorem C4_trigger_timestamp_counterexample :
    Manager.handle_start_timeout
        { children_satisfied := [false], satisfied := false, finished := false,
          introspection_started := false } =
      ({ children_satisfied := [false], satisfied := false, finished := false,
          introspection_started := true },
        [Effect.sendDownstream (Cmd.trigger 0)]) ∧
    CommandBuilder.build_trigger_cmd = Cmd.trigger 0 ∧
    Cmd.trigger 0 ≠ Cmd.trigger 5 := by
  decide

/-- C4 (amended): on ignore-window expiry the coordinator marks introspection
as started, relays downstream a TRIGGER command carrying the builder's
default timestamp `0.0` (not the current time), and then immediately re-runs
the aggregate children assessment (`handle_children_status_change`) on the
armed state. -/
theorem C4_start_timeout_amended (s : Manager.State) :
    Manager.handle_start_timeout s =
        ((Manager.handle_children_status_change
            { s with introspection_started := true }).1,
          Effect.sendDownstream (Cmd.trigger 0) ::
            (Manager.handle_children_status_change
              { s with introspection_started := true }).2) ∧
    (Manager.handle_start_timeout s).1.introspection_started = true := by
  refine ⟨Manager.handle_start_timeout_eq s, ?_⟩
  rw [Manager.handle_start_timeout_eq s]
  exact Manager.hcsc_introspection { s with introspection_started := true }

/-- C5 (counterexample): a Prevention node whose timer expires while neither
child is satisfied (in particular, P never satisfied) emits STOP_SIMULATION
upstream, which the claim says must not happen in that case. -/
theorem C5_prevention_timeout_counterexample :
    PreventionNode.handle_timeout
        { child0_satisfied := false, child1_satisfied := false, satisfied := false } =
      ({ child0_satisfied := false, child1_satisfied := false, satisfied := false },
        [Effect.sendUpstream Cmd.stopSimulation]) := by
  decide

/-- C5 (amended): at timer expiry the Prevention node becomes satisfied
exactly when P (`children[0]`) is satisfied and Q (`children[1]`) is not, in
which case it emits STATUS_CHANGE upstream and DISCONNECT downstream; in
EVERY other case — including P never having been satisfied — it emits
STOP_SIMULATION upstream. -/
theorem C5_prevention_timeout_amended (s : PreventionNode.State) :
    (PreventionNode.handle_timeout s).1.satisfied =
        (s.child0_satisfied && !s.child1_satisfied) ∧
    (PreventionNode.handle_timeout s).2 =
      (if s.child0_satisfied && !s.child1_satisfied then
        [Effect.sendUpstream Cmd.statusChange, Effect.sendDownstream Cmd.rosbridgeDisconnect]
       else [Effect.sendUpstream Cmd.stopSimulation]) := by
  obtain ⟨c0, c1, sat⟩ := s
  cases c0 <;> cases c1 <;> cases sat <;> decide

/-- C6 (counterexample): deliver ROSBRIDGE_DISCONNECT twice to a Response
node whose children are both satisfied (so the first delivery already
disconnected the subtree and reported upstream).  Both the first and the
repeated delivery emit STATUS_CHANGE upstream: the repeat is not a no-op and
duplicates the upstream command. -/
theorem C6_disconnect_idempotence_counterexample :
    Effect.sendUpstream Cmd.statusChange ∈
        (ResponseNode.handle_rosbridge_disconnection_commands
          { child0_satisfied := true, child1_satisfied := true, satisfied := true }
          Cmd.rosbridgeDisconnect).2 ∧
    Effect.sendUpstream Cmd.statusChange ∈
        (ResponseNode.handle_rosbridge_disconnection_commands
          (ResponseNode.handle_rosbridge_disconnection_commands
            { child0_satisfied := true, child1_satisfied := true, satisfied := true }
            Cmd.rosbridgeDisconnect).1
          Cmd.rosbridgeDisconnect).2 := by
  decide

/-- C6 (amended): delivering ROSBRIDGE_DISCONNECT to an Absence node is a
pure relay (timer cancel plus downstream relay, state untouched, nothing sent
upstream), so repeating it emits no duplicate upstream command there; but
Response and Prevention nodes re-run their children assessment on EVERY
DISCONNECT delivery and emit STATUS_CHANGE upstream whenever it holds, so a
repeated DISCONNECT to such a node does duplicate the upstream
STATUS_CHANGE. -/
theorem C6_disconnect_idempotence_amended (sa : AbsenceNode.State)
    (sr : ResponseNode.State) (sp : PreventionNode.State) (cmd : Cmd) :
    AbsenceNode.handle_rosbridge_disconnection_commands sa cmd =
        (sa, [Effect.timerCancel, Effect.sendDownstream cmd]) ∧
    (Effect.sendUpstream Cmd.statusChange ∈
        (ResponseNode.handle_rosbridge_disconnection_commands sr cmd).2 ↔
      ResponseNode.assess_children_nodes sr = true) ∧
    (Effect.sendUpstream Cmd.statusChange ∈
        (PreventionNode.handle_rosbridge_disconnection_commands sp cmd).2 ↔
      PreventionNode.assess_children_nodes sp = true) := by
  refine ⟨rfl, ?_, ?_⟩
  · obtain ⟨c0, c1, st⟩ := sr
    cases c0 <;> cases c1 <;>
      simp [ResponseNode.handle_rosbridge_disconnection_commands,
        ResponseNode.assess_children_nodes, CommandBuilder.build_status_change_cmd]
  · obtain ⟨c0, c1, st⟩ := sp
    cases c0 <;> cases c1 <;>
      simp [PreventionNode.handle_rosbridge_disconnection_commands,
        PreventionNode.assess_children_nodes, CommandBuilder.build_status_change_cmd]

/-- C7: for every non-leaf node kind, handling a downstream
ROSBRIDGE_CONNECT relays the command downstream as its very first effect and
starts the node's own timer afterwards, exactly when the node's timeout is
finite; with the infinite default timeout the timer is never started.  The
Disjunction node (spec-modelled, `disjoint.py` not among the sources) only
relays, having no timer of its own. -/
theorem C7_connect_relay_then_timer (t : RTime) (cmd : Cmd) :
    ((ExistenceNode.handle_rosbridge_connection_commands t cmd).head? =
        some (Effect.sendDownstream cmd) ∧
      (Effect.timerStart ∈ ExistenceNode.handle_rosbridge_connection_commands t cmd ↔
        t ≠ RTime.inf)) ∧
    ((AbsenceNode.handle_rosbridge_connection_commands t cmd).head? =
        some (Effect.sendDownstream cmd) ∧
      (Effect.timerStart ∈ AbsenceNode.handle_rosbridge_connection_commands t cmd ↔
        t ≠ RTime.inf)) ∧
    ((ResponseNode.handle_rosbridge_connection_commands t cmd).head? =
        some (Effect.sendDownstream cmd) ∧
      (Effect.timerStart ∈ ResponseNode.handle_rosbridge_connection_commands t cmd ↔
        t ≠ RTime.inf)) ∧
    ((RequirementNode.handle_rosbridge_connection_commands t cmd).head? =
        some (Effect.sendDownstream cmd) ∧
      (Effect.timerStart ∈ RequirementNode.handle_rosbridge_connection_commands t cmd ↔
        t ≠ RTime.inf)) ∧
    ((PreventionNode.handle_rosbridge_connection_commands t cmd).head? =
        some (Effect.sendDownstream cmd) ∧
      (Effect.timerStart ∈ PreventionNode.handle_rosbridge_connection_commands t cmd ↔
        t ≠ RTime.inf)) ∧
    DisjointNode.handle_rosbridge_connection_commands cmd =
      [Effect.sendDownstream cmd] := by
  cases t <;>
    simp [ExistenceNode.handle_rosbridge_connection_commands,
      AbsenceNode.handle_rosbridge_connection_commands,
      ResponseNode.handle_rosbridge_connection_commands,
      RequirementNode.handle_rosbridge_connection_commands,
      PreventionNode.handle_rosbridge_connection_commands,
      DisjointNode.handle_rosbridge_connection_commands]

/-- Helper: one coordinator step with an empty children list keeps the
children list empty, keeps the aggregate `satisfied` flag false, and flips
`finished` exactly on the hard-deadline event. -/
theorem Manager.step_empty (s : Manager.State) (e : Manager.MEvent)
    (hc : s.children_satisfied = []) (hs : s.satisfied = false) :
    (Manager.step s e).1.children_satisfied = [] ∧
    (Manager.step s e).1.satisfied = false ∧
    (Manager.step s e).1.finished = (s.finished || (e == Manager.MEvent.stopTimeout)) := by
  cases e with
  | startTimeout =>
    have ha : Manager.assess_children_nodes { s with introspection_started := true } = false := by
      simp [Manager.assess_children_nodes, hc]
    have hnc := Manager.hcsc_no_change { s with introspection_started := true }
      (by rw [ha]; exact hs.symm)
    simp only [Manager.step, Manager.handle_start_timeout_eq, hnc]
    simp [hc, hs]
  | stopTimeout =>
    simp [Manager.step, Manager.handle_stop_timeout, Manager.stop_simulation, hc, hs]

/-- Helper: running the coordinator with an empty children list through any
sequence of timer events keeps the children list empty and `satisfied` false,
and `finished` holds afterwards exactly when it held before or a
hard-deadline event occurred. -/
theorem Manager.run_empty (evs : List Manager.MEvent) (s : Manager.State)
    (hc : s.children_satisfied = []) (hs : s.satisfied = false) :
    (Manager.run s evs).children_satisfied = [] ∧
    (Manager.run s evs).satisfied = false ∧
    (Manager.run s evs).finished =
      (s.finished || evs.any (fun e => e == Manager.MEvent.stopTimeout)) := by
  induction evs generalizing s with
  | nil => simpa [Manager.run] using ⟨hc, hs⟩
  | cons e rest ih =>
    obtain ⟨h1, h2, h3⟩ := Manager.step_empty s e hc hs
    obtain ⟨g1, g2, g3⟩ := ih (Manager.step s e).1 h1 h2
    refine ⟨g1, g2, ?_⟩
    rw [Manager.run, g3, h3, List.any_cons, Bool.or_assoc]

/-- C8: a coordinator given no requirement subtrees, driven through any
sequence of its timer events, never has a satisfied aggregate assessment and
has `finished = true` exactly when the hard-deadline (max_timeout) event
occurred — the deadline expiry is the only path that sets `finished`.  (With
an empty children list the two timers are the only execution sources that can
reach the coordinator: upstream commands are sent only by children.) -/
theorem C8_no_requirements_deadline_only (evs : List Manager.MEvent) :
    ((Manager.run Manager.empty_init evs).finished = true ↔
      Manager.MEvent.stopTimeout ∈ evs) ∧
    (Manager.run Manager.empty_init evs).satisfied = false ∧
    Manager.assess_children_nodes (Manager.run Manager.empty_init evs) = false := by
  obtain ⟨h1, h2, h3⟩ := Manager.run_empty evs Manager.empty_init rfl rfl
  refine ⟨?_, h2, ?_⟩
  · rw [h3]
    show (false || _) = true ↔ _
    simp [List.any_eq_true]
  · simp [Manager.assess_children_nodes, h1]

/-- C9: the per-leaf report line.  A Simple-event leaf whose father is an
Absence node prints the inverted label (SATISFIED for a false flag,
UNSATISFIED for a true one); with any other father, or none, the label
follows the flag directly; the timestamp field shows the recorded
`last_message` or the fixed text when none was recorded (the field still
holds its initial `0.0`; satisfying receptions record positive wall-clock
times). -/
theorem C9_leaf_report_string (s : SimpleNode.State) :
    SimpleNode.node_str s =
      "\n[" ++ s.ros_topic ++ "]\t- " ++
        (if s.father = some FatherKind.absence then
          (if s.satisfied then "UNSATISFIED" else "SATISFIED")
         else (if s.satisfied then "SATISFIED" else "UNSATISFIED")) ++
        "\t(" ++
        (if s.last_message = 0 then "no ROS message received"
         else toString s.last_message) ++
        "): " ++ s.predicate := by
  obtain ⟨sat, lm, trig, fa, hc, topic, pred⟩ := s
  unfold SimpleNode.node_str
  rcases fa with _ | fk
  · by_cases h : lm = 0 <;> simp [h]
  · cases fk <;> by_cases h : lm = 0 <;> simp [h]

/-- C10: the predicate compiled from the `and` combinator evaluates both
operands on every message without short-circuiting: when the first operand
evaluates to false and the second operand's evaluation raises a `KeyError`
(its field path fails to resolve against the message), the compiled
conjunction propagates the `KeyError` to the caller instead of returning
false. -/
theorem C10_and_no_short_circuit (o1 o2 : HplAst) (msg : RVal) (k : String)
    (h1 : Arg.as_callback (extract_argument o1) msg = .ok false)
    (h2 : Arg.as_callback (extract_argument o2) msg = .error (.keyError k)) :
    process_binary_operator "and" o1 o2 msg = .error (.keyError k) := by
  show CallbackGenerator.generate_callback_and _ _ msg = _
  unfold CallbackGenerator.generate_callback_and
  rw [h1]
  simp only [h2]
  rfl

/-- C10 (witness): concrete instance — `and` of `(a = 1)` and `(b = 1)`
evaluated on `{a: 2}`: the first conjunct is false, yet the missing field `b`
of the second conjunct raises `KeyError`. -/
theorem C10_and_no_short_circuit_witness :
    process_binary_operator "and"
        (.binaryOperator "=" (.fieldAccess ["a"]) (.lit (.num 1)))
        (.binaryOperator "=" (.fieldAccess ["b"]) (.lit (.num 1)))
        (RVal.dict [("a", RVal.num 2)]) = .error (.keyError "b") :=
  C10_and_no_short_circuit
    (.binaryOperator "=" (.fieldAccess ["a"]) (.lit (.num 1)))
    (.binaryOperator "=" (.fieldAccess ["b"]) (.lit (.num 1)))
    (RVal.dict [("a", RVal.num 2)]) "b" (by rfl) (by rfl)

end Rigel
